import Mathlib

/-!
Verification development for the `topo_import` repository.

The development shallowly embeds the two pipelines of the source:

* the topology pipeline (`src/osmpbf/topology_migrator.py`, `src/osmpbf/way_splitter.py`):
  two passes over the way stream, intersection detection, way splitting
  (`split_long` and the factored-out `WaySplitter.split`), edge/node emission into
  buffered tables;
* the address pipeline (`src/osmpbf/address_extractor.py`): the `AddressExtractor`
  handlers, the `StreetMatcher` pass and the city pass of `finish`;
* the command line front end (`src/topo_import.py`, `parse_args`).

Modelling conventions, used consistently below:

* Python floats are idealized as real numbers; the topology side needs `math.sqrt`,
  embedded as `Real.sqrt`, hence its definitions are `noncomputable` and concrete
  runs are evaluated symbolically (`simp`/`norm_num`) in the theorems.
  The address side performs no square roots of its own (all geometric measures come
  from the external `shapely` library), so it is embedded computably over `ℚ`.
* Python dicts are embedded as insertion-ordered association lists (`dictSet`,
  `dictGet?`), Python sets as duplicate-free lists in insertion order (`insertSet`).
* OSM tag bags are association lists of strings; `tags.get(k, d)` is `tagGetD`.
* External geometry objects (shapely linestrings / multipolygons and the osmium
  geometry factories, declared out of scope by the specification) are embedded as
  records of oracle fields: a centroid, a bounding box, a containment test and a
  distance function.  The code under verification only consumes these values.
* Stats counters that the source only ever writes (never reads back into control
  flow) are kept only where a claim mentions them (the `AddressExtractor` stats);
  elsewhere they are omitted.
-/

namespace TopoImport

/-- OSM tag bag: association list of key/value strings (first match wins,
like a Python dict built once). -/
abbrev Tags := List (String × String)

/-- `tags.get(k)` — `None` when the key is absent. -/
def tagGet (tags : Tags) (k : String) : Option String :=
  (tags.find? (fun p => p.1 = k)).map (fun p => p.2)

/-- `tags.get(k, d)`. -/
def tagGetD (tags : Tags) (k : String) (d : String) : String :=
  (tagGet tags k).getD d

/-- `k in tags`. -/
def hasTag (tags : Tags) (k : String) : Bool :=
  (tagGet tags k).isSome

/-- Insertion-ordered dict update: replace the value at the key if present,
append otherwise (`d[k] = v`). -/
def dictSet {α : Type} : List (Int × α) → Int → α → List (Int × α)
  | [], k, v => [(k, v)]
  | (k0, v0) :: rest, k, v =>
      if k0 = k then (k, v) :: rest else (k0, v0) :: dictSet rest k v

/-- Dict lookup (`d.get(k)` / `k in d`). -/
def dictGet? {α : Type} : List (Int × α) → Int → Option α
  | [], _ => none
  | (k0, v) :: rest, k => if k0 = k then some v else dictGet? rest k

/-- Python `set.add`: no-op when already present, append otherwise. -/
def insertSet (l : List Int) (x : Int) : List Int :=
  if x ∈ l then l else l ++ [x]

/-! ## Command line front end (`src/topo_import.py`, `parse_args`) -/

/-- The argparse namespace after successful option parsing. -/
structure RawArgs where
  pbf : String
  host : String
  db : String
  topo_import : Bool
  address_import : Bool
  cache_mem : Bool
  port : Option String
  username : Option String
  password : Option String
  max_meters : Option Int
  output_path : Option String
  deriving DecidableEq

/-- `parse_args` from `src/topo_import.py`, after argparse has accepted the raw
options.  `argparse.ArgumentParser.error` (used for the flag-combination checks)
terminates the process with exit status 2; the missing-input check uses
`sys.exit(1)`.  The result is the exit code on failure, the parsed args on
success.  `fileExists` stands for `os.path.exists`. -/
def parse_args (fileExists : String → Bool) (a : RawArgs) : Except ℕ RawArgs :=
  if a.topo_import = a.address_import then
    Except.error 2
  else if a.topo_import ∧ (a.username = none ∨ a.password = none) then
    Except.error 2
  else if ¬ fileExists a.pbf then
    Except.error 1
  else
    Except.ok a

/-! ## Python `int()` on strings

`int(s)` strips surrounding whitespace, accepts an optional sign, then decimal
digits with single underscores allowed strictly between digits; anything else
raises `ValueError`.  (Non-ASCII decimal digits, which Python also accepts, do
not occur in OSM `admin_level` tags and are not modelled.) -/

/-- No two adjacent underscores. -/
def noDoubleUnderscore : List Char → Bool
  | '_' :: '_' :: _ => false
  | _ :: rest => noDoubleUnderscore rest
  | [] => true

/-- Digit run with optional single underscores between digits, as a value. -/
def pyIntDigits (cs : List Char) : Option ℕ :=
  if cs ≠ [] ∧ (cs.headD '0').isDigit ∧ (cs.getLastD '0').isDigit ∧
      noDoubleUnderscore cs ∧ cs.all (fun c => c.isDigit || c = '_') then
    some ((cs.filter (fun c => c ≠ '_')).foldl (fun n c => 10 * n + (c.toNat - 48)) 0)
  else none

/-- Whitespace for `str.strip()` purposes. -/
def isPySpace (c : Char) : Bool :=
  c = ' ' ∨ c = '\t' ∨ c = '\n' ∨ c = '\r'

/-- Python `int(s)` for a string argument: `some` value or `none` for `ValueError`. -/
def pyInt (s : String) : Option ℤ :=
  let cs := ((s.toList.dropWhile isPySpace).reverse.dropWhile isPySpace).reverse
  match cs with
  | '+' :: rest => (pyIntDigits rest).map (fun n => (n : ℤ))
  | '-' :: rest => (pyIntDigits rest).map (fun n => -(n : ℤ))
  | _ => (pyIntDigits cs).map (fun n => (n : ℤ))

/-! ## Address pipeline data model (`src/osmpbf/address_extractor.py`)

Coordinates on this side are `(lon, lat)` pairs of rationals; all geometric
measurements (centroids, bounds, containment, distances) are produced by the
external shapely/osmium libraries and are embedded as oracle fields. -/

/-- A point in `(lon, lat)` order. -/
abbrev QPt := ℚ × ℚ

/-- Shapely bounding box `(minx, miny, maxx, maxy)`. -/
structure QRect where
  minx : ℚ
  miny : ℚ
  maxx : ℚ
  maxy : ℚ
  deriving DecidableEq

/-- An external shapely geometry, reduced to the observations the source makes
of it: `geo.centroid`, `geo.bounds`, `geo.contains(point)` and
`geo.distance(point)`. -/
structure QGeo where
  centroid : QPt
  bounds : QRect
  containsPt : QPt → Bool
  distToPt : QPt → ℚ

/-- `Address` dataclass. -/
structure Address where
  city : String
  postcode : String
  street : String
  housenumber : String
  city_simc : String
  deriving DecidableEq

/-- `Place` dataclass.  `amenity` is always constructed with `tags.get('amenity', '')`
in the source, hence a plain string here. -/
structure Place where
  pid : String
  name : String
  addr : Address
  amenity : String
  geo : QPt
  street_distance : ℚ
  street_id : Option Int := none
  city_from_area : Bool := false
  postcode_from_area : Bool := false
  deriving DecidableEq

/-- `Area` dataclass (administrative boundary). -/
structure AreaRec where
  aid : String
  name : String
  quality : ℕ
  level : ℤ
  geo : QGeo
  centroid : QPt
  postcode : String

/-- `PostalPlace` dataclass. -/
structure PostalPlace where
  name : String
  is_in : String
  postcode : String
  geo : QPt

/-- Mutable state of an `AddressExtractor` instance.  The `relations` list and
the start/timing fields play no role in any claim and are omitted. -/
structure ExtState where
  places : List Place
  address_idx : List (ℕ × QPt)
  areas : List AreaRec
  stats : List (String × ℕ)
  postal_simcs : List (String × String)
  postal_places : List PostalPlace

/-- A fresh `AddressExtractor()`. -/
def extInit : ExtState := ⟨[], [], [], [], [], []⟩

/-- `defaultdict(lambda: 0)` lookup. -/
def statGet (stats : List (String × ℕ)) (k : String) : ℕ :=
  ((stats.find? (fun p => p.1 = k)).map (fun p => p.2)).getD 0

/-- `stats[k] += 1`. -/
def statBump (stats : List (String × ℕ)) (k : String) : List (String × ℕ) :=
  match stats with
  | [] => [(k, 1)]
  | (k0, v0) :: rest => if k0 = k then (k, v0 + 1) :: rest else (k0, v0) :: statBump rest k

/-- Exceptions that escape the extractor callbacks. -/
inductive PyErr where
  | attributeErrorNoneCentroid
  | valueErrorInt
  deriving DecidableEq

/-- A `Way` event as seen by the extractor: id, tags and the outcome of
`wktfab.create_linestring(way)` (`none` models `osmium InvalidLocationError`). -/
structure ExtWay where
  wid : Int
  tags : Tags
  linestring : Option QGeo

/-- An `Area` event: id, `orig_id()`, `from_way()`, tags and the outcome of
`wktfab.create_multipolygon(area)` (`none` models a `RuntimeError`). -/
structure ExtArea where
  aid : Int
  orig_id : Int
  from_way : Bool
  tags : Tags
  multipolygon : Option QGeo

/-- `AddressExtractor.tags_to_address`, threading the stats counters it bumps. -/
def tags_to_address (stats : List (String × ℕ)) (tags : Tags) :
    Address × List (String × ℕ) :=
  let place := tagGetD tags "addr:place" ""
  let street := tagGetD tags "addr:street" ""
  let city := tagGetD tags "addr:city" ""
  let stats :=
    if city = "" then
      let stats := statBump stats "addr_no_city"
      let stats := if place ≠ "" then statBump stats "addr_no_city_with_place" else stats
      if street ≠ "" then statBump stats "addr_no_city_with_street" else stats
    else stats
  let stats :=
    if street = "" then
      let stats := statBump stats "addr_no_street"
      if place ≠ "" then statBump stats "addr_no_street_with_place" else stats
    else
      if place ≠ "" then statBump stats "addr_with_place_and_street" else stats
  (⟨if city = "" then place else city,
    tagGetD tags "addr:postcode" "",
    if street = "" then place else street,
    tagGetD tags "addr:housenumber" "",
    tagGetD tags "addr:city:simc" ""⟩, stats)

/-- `AddressExtractor.index_address`: append the place; when its street is empty
also insert its point into the street-less spatial index under the place's
ordinal position. -/
def index_address (st : ExtState) (place : Place) : ExtState :=
  let idx := st.places.length
  let st := { st with places := st.places ++ [place] }
  if place.addr.street = "" then
    { st with address_idx := st.address_idx ++ [(idx, place.geo)],
              stats := statBump st.stats "no_street_idx" }
  else st

/-- `AddressExtractor.way`.  The per-10000 progress print is ignored.  On an
invalid location the source increments `way_with_invalid_location`, leaves
`geo = None`, falls through, and evaluates `geo.centroid`, raising
`AttributeError`; the error value carries the extractor state at raise time. -/
def AddressExtractor.way (st : ExtState) (ev : ExtWay) :
    Except (PyErr × ExtState) ExtState :=
  let stats := statBump st.stats "ways"
  if ¬ hasTag ev.tags "addr:housenumber" then
    Except.ok { st with stats := statBump stats "way_no_housenumber" }
  else
    let r := tags_to_address stats ev.tags
    match ev.linestring with
    | none =>
        Except.error (PyErr.attributeErrorNoneCentroid,
          { st with stats := statBump r.2 "way_with_invalid_location" })
    | some geo =>
        let place : Place :=
          { pid := "w" ++ toString ev.wid,
            name := tagGetD ev.tags "name" "",
            amenity := tagGetD ev.tags "amenity" "",
            addr := r.1,
            geo := geo.centroid,
            street_distance := 360 }
        Except.ok (index_address { st with stats := r.2 } place)

/-- Substring search helper for Python's `pat in hay` on strings. -/
def listStartsWith : List Char → List Char → Bool
  | _, [] => true
  | [], _ :: _ => false
  | h :: hs, p :: ps => h = p && listStartsWith hs ps

/-- Python `pat in hay` (substring containment). -/
def listContainsSub : List Char → List Char → Bool
  | [], pat => pat.isEmpty
  | h :: rest, pat => listStartsWith (h :: rest) pat || listContainsSub rest pat

/-- Python `pat in hay` for strings. -/
def strContainsSub (hay pat : String) : Bool :=
  listContainsSub hay.toList pat.toList

/-- String-keyed dict lookup with default (`d.get(k, dflt)`). -/
def strDictGetD (m : List (String × String)) (k dflt : String) : String :=
  ((m.find? (fun p => p.1 = k)).map (fun p => p.2)).getD dflt

/-- The scan over `postal_places` inside `get_postcode`; `acc` is the running
`postcode_geo`. -/
def get_postcode_loop (name : String) (geo : QGeo) :
    List PostalPlace → String → String
  | [], acc => acc
  | pl :: rest, acc =>
      if (name ≠ "" ∧ name = pl.name) ∨
          (strContainsSub pl.is_in name ∧ geo.containsPt pl.geo) then
        pl.postcode
      else if geo.containsPt pl.geo then get_postcode_loop name geo rest pl.postcode
      else get_postcode_loop name geo rest acc

/-- `AddressExtractor.get_postcode`. -/
def get_postcode (st : ExtState) (simc : Option String) (name : String)
    (geo : QGeo) : String :=
  let viaSimc :=
    match simc with
    | some s => if s ≠ "" then strDictGetD st.postal_simcs s "" else ""
    | none => ""
  if viaSimc ≠ "" then viaSimc
  else get_postcode_loop name geo st.postal_places ""

/-- Truthiness of an optional tag value (`None` and `''` are falsy). -/
def optTruthy (o : Option String) : Bool :=
  match o with
  | some s => s ≠ ""
  | none => false

/-- `AddressExtractor.area`.  The `int(tags.get('admin_level', "99"))` conversion
is not guarded by any try/except; a non-integer value raises `ValueError`,
modelled as the error case. -/
def AddressExtractor.area (st : ExtState) (ev : ExtArea) :
    Except (PyErr × ExtState) ExtState :=
  let stats := statBump st.stats "areas"
  if ¬ ev.from_way ∧ hasTag ev.tags "addr:housenumber" then
    let stats := statBump stats "areas_as_relation"
    match ev.multipolygon with
    | none =>
        Except.ok { st with stats := statBump stats "areas_as_relation_with_runtime_error" }
    | some geo =>
        let r := tags_to_address stats ev.tags
        let place : Place :=
          { pid := "r" ++ toString ev.orig_id,
            name := tagGetD ev.tags "name" "",
            amenity := tagGetD ev.tags "amenity" "",
            addr := r.1,
            geo := geo.centroid,
            street_distance := 360 }
        Except.ok (index_address { st with stats := r.2 } place)
  else
    match tagGet ev.tags "boundary" with
    | none => Except.ok { st with stats := statBump stats "areas_not_boundary" }
    | some boundary =>
      if boundary ≠ "administrative" then
        Except.ok { st with stats := statBump stats "areas_not_administrative" }
      else
        match pyInt (tagGetD ev.tags "admin_level" "99") with
        | none => Except.error (PyErr.valueErrorInt, { st with stats := stats })
        | some admin_level =>
          if admin_level ≤ 4 ∨ 10 ≤ admin_level then
            Except.ok { st with stats := statBump stats "areas_bad_level" }
          else if hasTag ev.tags "religion" then
            Except.ok { st with stats := statBump stats "areas_religion" }
          else
            match ev.multipolygon with
            | none =>
                Except.ok { st with stats := statBump stats "area_with_runtime_error" }
            | some geo =>
              let name := tagGetD ev.tags "name" ""
              let simc := tagGet ev.tags "teryt:simc"
              let terc := tagGet ev.tags "teryt:terc"
              let terc_type := tagGetD ev.tags "terc:typ" ""
              let has_population := hasTag ev.tags "population"
              let stats := if name.startsWith "gmina " then statBump stats "areas_gmina" else stats
              let stats := if name.startsWith "powiat " then statBump stats "areas_powiat" else stats
              let quality := (if optTruthy terc ∨ terc_type ≠ "" ∨ optTruthy simc then 3 else 0) +
                (if has_population then 1 else 0)
              let postcode := get_postcode st simc name geo
              let newArea : AreaRec :=
                ⟨"a" ++ toString ev.aid, name, quality, admin_level, geo, geo.centroid, postcode⟩
              Except.ok { st with stats := stats, areas := st.areas ++ [newArea] }

/-! ## Street matcher (`StreetMatcher` in `src/osmpbf/address_extractor.py`)

The matcher iterates ways; for each accepted way it queries the street-less
R-tree with the way's expanded bounding box and updates each candidate place
independently.  Updating every place, guarded by membership in the index and
the bounding-box test, is the same transformation; places are identified with
their ordinal position (the R-tree key used by `index_address`).  The matcher's
own stats counters are write-only and omitted. -/

/-- `StreetMatcher.MAX_DISTANCE`. -/
def MAX_DISTANCE : ℚ := 2 / 1000

/-- Highway types skipped by the street matcher. -/
def ignoredStreetTypes : List String :=
  ["footway", "track", "sidewalk", "pedestrian", "cycleway", "service",
   "construction", "path"]

/-- A way event as consumed by `StreetMatcher.way`. -/
structure SMWay where
  wid : Int
  tags : Tags
  linestring : Option QGeo

/-- Is the indexed point inside the way's bounding box expanded by
`MAX_DISTANCE` on every side (the R-tree `intersection` query)? -/
def inResidential (b : QRect) (p : QPt) : Bool :=
  b.minx - MAX_DISTANCE ≤ p.1 ∧ p.1 ≤ b.maxx + MAX_DISTANCE ∧
  b.miny - MAX_DISTANCE ≤ p.2 ∧ p.2 ≤ b.maxy + MAX_DISTANCE

/-- The update `StreetMatcher.way` performs on one place; `cand` tells whether
the place is in the street-less index (it is iterated only if additionally the
bounding boxes intersect).  Mirrors the source's distance / override /
keep-named branching. -/
def smStep (cand : Bool) (w : SMWay) (p : Place) : Place :=
  match tagGet w.tags "highway" with
  | none => p
  | some way_type =>
    if way_type ∈ ignoredStreetTypes then p
    else
      match w.linestring with
      | none => p
      | some geo =>
        if cand && inResidential geo.bounds p.geo then
          let distance := geo.distToPt p.geo
          if MAX_DISTANCE < distance then p
          else if distance < p.street_distance then
            if p.addr.street ≠ "" ∧ tagGetD w.tags "name" "" = "" then p
            else { p with addr := { p.addr with street := tagGetD w.tags "name" "" },
                          street_distance := distance,
                          street_id := some w.wid }
          else p
        else p

/-- Indexed map used to model the per-ordinal R-tree candidate check. -/
def mapWithIdx {α : Type} (f : ℕ → α → α) : ℕ → List α → List α
  | _, [] => []
  | i, a :: rest => f i a :: mapWithIdx f (i + 1) rest

/-- `StreetMatcher.way` over the whole place list: every place whose ordinal is
in the street-less index and whose point lies in the expanded bounds is updated. -/
def StreetMatcher.way (idx : List ℕ) (w : SMWay) (places : List Place) : List Place :=
  mapWithIdx (fun i p => smStep (decide (i ∈ idx)) w p) 0 places

/-- A full street-matcher pass: fold `StreetMatcher.way` over the way stream. -/
def smPass (idx : List ℕ) (ws : List SMWay) (places : List Place) : List Place :=
  ws.foldl (fun ps w => StreetMatcher.way idx w ps) places

/-! ## Area resolver: the city pass of `AddressExtractor.finish`

`finish` discards the street-less index, sorts the places, bulk-loads an R-tree
of area bounding boxes, and for each place with empty city collects the
candidate areas returned by the R-tree point query, sorts them by `admin_level`
ascending (Python's stable sort, modelled by a stable insertion sort), and
walks them: each candidate that truly contains the point overwrites the city
and sets `city_from_area`; a level-8 match breaks the walk.  The stats updates
(`bounding_box_but_no_match`, `max_area_distance`, `matched_area_lvl*`) are
write-only and omitted. -/

/-- The walk over sorted candidate areas for one place ("cities" field type). -/
def fillCityLoop : Place → List AreaRec → Place
  | p, [] => p
  | p, a :: rest =>
      if a.geo.containsPt p.geo then
        let p := { p with addr := { p.addr with city := a.name }, city_from_area := true }
        if a.level = 8 then p else fillCityLoop p rest
      else fillCityLoop p rest

/-- The city pass of `fill_unmatched` for a single place: `parents` are the
areas returned by the R-tree query for the place's point, in query order. -/
def fillCity (p : Place) (parents : List AreaRec) : Place :=
  fillCityLoop p (List.insertionSort (fun a b => a.level ≤ b.level) parents)

/-! ## Topology pipeline (`src/osmpbf/topology_migrator.py`, `src/osmpbf/way_splitter.py`)

The splitter computes `math.sqrt` of float expressions, idealized here as real
arithmetic with `Real.sqrt`; these definitions are noncomputable and the
theorems evaluate concrete runs symbolically. -/

noncomputable section

/-- A `(lon, lat)` coordinate pair on the topology side. -/
abbrev Pt := ℝ × ℝ

/-- `m2deg`: `meters / 90634.692934` (identical in both source files). -/
def m2deg (meters : ℝ) : ℝ := meters / (90634692934 / 1000000)

/-- `deg2m`, the inverse conversion. -/
def deg2m (degrees : ℝ) : ℝ := degrees * (90634692934 / 1000000)

/-- Chord distance in degrees:
`math.sqrt((node_prev[0]-node_cur[0])**2 + (node_prev[1]-node_cur[1])**2)`. -/
def chord (p q : Pt) : ℝ := Real.sqrt ((p.1 - q.1) ^ 2 + (p.2 - q.2) ^ 2)

/-- Python `int(x)` for the nonnegative float values it is applied to here
(truncation towards zero = floor). -/
def pyTrunc (x : ℝ) : ℕ := (⌊x⌋).toNat

/-- `self.way_nodes`: node id → `None` (marked, coordinates pending) or a
coordinate pair, as an insertion-ordered dict. -/
abbrev NodeDict := List (Int × Option Pt)

/-- `self.way_nodes[node_id]` where the pipeline guarantees the node is present
with coordinates (the spec notes the caller guarantees all referenced NodeRefs
have coordinates); a missing entry would raise in Python and is defaulted here. -/
def getCoord (m : NodeDict) (k : Int) : Pt :=
  match dictGet? m k with
  | some (some p) => p
  | _ => (0, 0)

/-- The `WayMapping` enum: recognized `highway` values and their type codes. -/
def wayMapping : String → Option ℕ
  | "motorway" => some 100
  | "motorway_link" => some 101
  | "motorway_junction" => some 102
  | "trunk" => some 200
  | "trunk_link" => some 201
  | "primary" => some 300
  | "primary_link" => some 301
  | "secondary" => some 400
  | "secondary_link" => some 401
  | "tertiary" => some 500
  | "tertiary_link" => some 501
  | "unclassified" => some 600
  | "residential" => some 700
  | "living_street" => some 701
  | "service" => some 900
  | "road" => some 1100
  | _ => none

/-- The `Way` namedtuple of `parsepbf` (`way_id, tags, nodes`).  The legacy
parser returns byte-string tag keys; tags are normalized to strings here. -/
structure MigWay where
  way_id : Int
  tags : Tags
  nodes : List Int

/-- The `Node` namedtuple of `parsepbf` (`node_id, lon, lat, tags`). -/
structure MigNode where
  node_id : Int
  lon : ℝ
  lat : ℝ
  tags : Tags

/-- A buffered `r_ways` row (`length` is computed by the store afterwards and
`geom` carries the linestring coordinates). -/
structure Edge where
  id : Int
  id_osm : Int
  type : ℕ
  source : Int
  target : Int
  lon1 : ℝ
  lat1 : ℝ
  lon2 : ℝ
  lat2 : ℝ
  name : String
  geom : List Pt

/-- A buffered `r_nodes` row. -/
structure TopoNode where
  nid : Int
  lon : ℝ
  lat : ℝ

/-- Mutable state of a `TopologyMigrator`; the database connection is modelled
by the `db_ways`/`db_nodes` lists that `flush` appends to.  The write-only
`ways_ignored`/`ways_found` counters are omitted. -/
structure MigState where
  way_intersections : List Int
  way_nodes : NodeDict
  ways_buffer : List Edge
  nodes_buffer : List TopoNode
  db_ways : List Edge
  db_nodes : List TopoNode
  max_meters : Option ℝ

/-- `TopologyMigrator(conn, max_meters)`. -/
def migInit (max_meters : Option ℝ) : MigState :=
  ⟨[], [], [], [], [], [], max_meters⟩

/-- `CHUNK_SIZE`. -/
def CHUNK_SIZE : ℕ := 1000

/-- `TopologyMigrator.filter_way`: `True` when the way carries no recognized
`highway` tag. -/
def filter_way (w : MigWay) : Bool :=
  match tagGet w.tags "highway" with
  | none => true
  | some hw => (wayMapping hw).isNone

/-- `TopologyMigrator.node_optimisation_cb` (pass 1): mark every node of an
accepted way; a node already marked is an intersection; first and last node are
always intersections. -/
def node_optimisation_cb (st : MigState) (w : MigWay) : MigState :=
  if filter_way w then st
  else
    let st := w.nodes.foldl
      (fun st node_id =>
        let st :=
          if (dictGet? st.way_nodes node_id).isSome then
            { st with way_intersections := insertSet st.way_intersections node_id }
          else st
        { st with way_nodes := dictSet st.way_nodes node_id none }) st
    { st with way_intersections :=
        insertSet (insertSet st.way_intersections (w.nodes.headD 0)) (w.nodes.getLastD 0) }

/-- `TopologyMigrator.node_cb` (pass 2): fill coordinates of marked nodes. -/
def node_cb (st : MigState) (n : MigNode) : MigState :=
  if (dictGet? st.way_nodes n.node_id).isSome then
    { st with way_nodes := dictSet st.way_nodes n.node_id (some (n.lon, n.lat)) }
  else st

/-- Python `l[-1:]`. -/
def lastSlice (l : List Int) : List Int := l.drop (l.length - 1)

/-- Loop state shared by `split_long` and `WaySplitter.split`:
the accumulated length, the emitted split ways, the way under construction,
the `node_prev`/`node_cur` loop variables and the node dict being mutated. -/
structure SplitSt where
  length : ℝ
  split_ways : List (List Int)
  current_way : List Int
  node_mem : Option Pt
  way_nodes : NodeDict
  way_intersections : List Int

/-- One iteration of the artificial-point loop of `TopologyMigrator.split_long`:
the new node sits at `node_prev + vector * max_degrees * i` (note `i` starts at
0), its id is `node_cur_id * 10000 + i` written unconditionally into the node
dict; the current way is closed and restarted from the artificial point.
`split_long` does not touch the intersection set here. -/
def sl_art_step (max_degrees : ℝ) (node_cur_id : Int) (node_prev vector : Pt)
    (st : SplitSt) (i : ℕ) : SplitSt :=
  let node_new : Pt :=
    (node_prev.1 + vector.1 * max_degrees * (i : ℝ),
     node_prev.2 + vector.2 * max_degrees * (i : ℝ))
  let art_id : Int := node_cur_id * 10000 + (i : ℤ)
  let cw := st.current_way ++ [art_id]
  { st with
    way_nodes := dictSet st.way_nodes art_id (some node_new),
    split_ways := st.split_ways ++ [cw],
    current_way := lastSlice cw,
    length := 0 }

/-- One iteration of the node loop of `TopologyMigrator.split_long`.  Note the
source has no branch for `length + distance ≤ max_degrees` after the first
node: such nodes are neither appended nor do they update `node_prev` (compare
`ws_step` below, which has the branch). -/
def sl_step (max_degrees : ℝ) (st : SplitSt) (node_cur_id : Int) : SplitSt :=
  let node_cur := getCoord st.way_nodes node_cur_id
  match st.node_mem with
  | none =>
      { st with current_way := st.current_way ++ [node_cur_id], node_mem := some node_cur }
  | some node_prev =>
    let distance := chord node_prev node_cur
    if st.length + distance > max_degrees then
      if 2 ≤ st.current_way.length ∧ distance ≤ max_degrees then
        let cw2 := lastSlice st.current_way ++ [node_cur_id]
        { st with
          split_ways := st.split_ways ++ [st.current_way],
          current_way := cw2,
          length := distance,
          node_mem := some node_cur }
      else
        let vector : Pt :=
          ((node_cur.1 - node_prev.1) / distance, (node_cur.2 - node_prev.2) / distance)
        let times := pyTrunc ((st.length + distance) / max_degrees)
        let st1 := (List.range times).foldl (sl_art_step max_degrees node_cur_id node_prev vector) st
        { st1 with current_way := st1.current_way ++ [node_cur_id], node_mem := some node_cur }
    else st

/-- `TopologyMigrator.split_long(node_lst, max_meters)`: returns the split ways
and the mutated node dict. -/
def TopologyMigrator.split_long (way_nodes : NodeDict) (node_lst : List Int)
    (max_meters : ℝ) : List (List Int) × NodeDict :=
  let max_degrees := m2deg max_meters
  let st := node_lst.foldl (sl_step max_degrees) ⟨0, [], [], none, way_nodes, []⟩
  (if 1 < st.current_way.length then st.split_ways ++ [st.current_way] else st.split_ways,
   st.way_nodes)

/-- One iteration of the artificial-point loop of `WaySplitter.split`
(`src/osmpbf/way_splitter.py`): as `sl_art_step`, but the new split point
(`current_way[0]`, the artificial node) is added to the intersection set. -/
def ws_art_step (max_degrees : ℝ) (node_cur_id : Int) (node_prev vector : Pt)
    (st : SplitSt) (i : ℕ) : SplitSt :=
  let node_new : Pt :=
    (node_prev.1 + vector.1 * max_degrees * (i : ℝ),
     node_prev.2 + vector.2 * max_degrees * (i : ℝ))
  let art_id : Int := node_cur_id * 10000 + (i : ℤ)
  let cw := st.current_way ++ [art_id]
  let cw2 := lastSlice cw
  { st with
    way_nodes := dictSet st.way_nodes art_id (some node_new),
    split_ways := st.split_ways ++ [cw],
    current_way := cw2,
    length := 0,
    way_intersections := insertSet st.way_intersections (cw2.headD 0) }

/-- One iteration of the node loop of `WaySplitter.split`.  In this file
`node_prev` is re-assigned from `node_cur` at the top of every loop iteration,
so the carried loop variable is `node_cur` (`node_mem` here); a node that does
not overflow the chunk is appended and accumulates the length; and split points
(shared nodes and artificial nodes) are added to the intersection set. -/
def ws_step (max_degrees : ℝ) (st : SplitSt) (node_cur_id : Int) : SplitSt :=
  let node_cur := getCoord st.way_nodes node_cur_id
  match st.node_mem with
  | none =>
      { st with current_way := st.current_way ++ [node_cur_id], node_mem := some node_cur }
  | some node_prev =>
    let distance := chord node_prev node_cur
    if st.length + distance ≤ max_degrees then
      { st with current_way := st.current_way ++ [node_cur_id],
                length := st.length + distance,
                node_mem := some node_cur }
    else if 2 ≤ st.current_way.length ∧ distance ≤ max_degrees then
      let cw2 := lastSlice st.current_way ++ [node_cur_id]
      { st with
        split_ways := st.split_ways ++ [st.current_way],
        current_way := cw2,
        length := distance,
        node_mem := some node_cur,
        way_intersections := insertSet st.way_intersections (cw2.headD 0) }
    else
      let vector : Pt :=
        ((node_cur.1 - node_prev.1) / distance, (node_cur.2 - node_prev.2) / distance)
      let times := pyTrunc ((st.length + distance) / max_degrees)
      let st1 := (List.range times).foldl (ws_art_step max_degrees node_cur_id node_prev vector) st
      { st1 with current_way := st1.current_way ++ [node_cur_id], node_mem := some node_cur }

/-- `WaySplitter(way_nodes, way_intersections, max_meters).split(node_lst)`:
returns the split ways, the mutated node dict and the mutated intersection set. -/
def WaySplitter.split (max_meters : ℝ) (way_nodes : NodeDict)
    (way_intersections : List Int) (node_lst : List Int) :
    List (List Int) × NodeDict × List Int :=
  let max_degrees := m2deg max_meters
  let st := node_lst.foldl (ws_step max_degrees) ⟨0, [], [], none, way_nodes, way_intersections⟩
  (if 1 < st.current_way.length then st.split_ways ++ [st.current_way] else st.split_ways,
   st.way_nodes, st.way_intersections)

/-- Step 1 of `TopologyMigrator.way_cb`: walk `way.nodes[1:]` starting from
`[way.nodes[0]]`, closing the current way at every intersection node (which
also starts the next way); the leftover current way after the loop is
discarded by the source. -/
def split_on_intersections (inters : List Int) (nodes : List Int) : List (List Int) :=
  ((nodes.drop 1).foldl
    (fun (acc : List (List Int) × List Int) node_id =>
      if node_id ∈ inters then (acc.1 ++ [acc.2 ++ [node_id]], [node_id])
      else (acc.1, acc.2 ++ [node_id]))
    (([] : List (List Int)), [nodes.headD 0])).1

/-- `(id, element)` enumeration used for the `enumerate(short_ways)` loop. -/
def enumFromIdx {α : Type} : ℕ → List α → List (ℕ × α)
  | _, [] => []
  | i, a :: rest => (i, a) :: enumFromIdx (i + 1) rest

/-- The `r_ways` row built for sub-way number `i` of an accepted way. -/
def mkEdge (m : NodeDict) (osm_id : Int) (type : ℕ) (name : String) (i : ℕ)
    (nodes : List Int) : Edge :=
  let geom := nodes.map (getCoord m)
  { id := osm_id * 10000 + (i : ℤ),
    id_osm := osm_id,
    type := type,
    source := nodes.headD 0,
    target := nodes.getLastD 0,
    lon1 := (geom.headD (0, 0)).1,
    lat1 := (geom.headD (0, 0)).2,
    lon2 := (geom.getLastD (0, 0)).1,
    lat2 := (geom.getLastD (0, 0)).2,
    name := name,
    geom := geom }

/-- `TopologyMigrator.flush`: move both buffers into the database. -/
def flush (st : MigState) : MigState :=
  { st with
    db_ways := st.db_ways ++ st.ways_buffer,
    ways_buffer := [],
    db_nodes := st.db_nodes ++ st.nodes_buffer,
    nodes_buffer := [] }

/-- `TopologyMigrator.way_cb` (pass 2): split on intersections, feed each piece
through `split_long` when `max_meters` is configured, buffer one `r_ways` row
per resulting sub-way, flushing past `CHUNK_SIZE`. -/
def way_cb (st : MigState) (w : MigWay) : MigState :=
  if filter_way w then st
  else
    let type := (wayMapping (tagGetD w.tags "highway" "")).getD 0
    let name := tagGetD w.tags "name" ""
    let split_ways := split_on_intersections st.way_intersections w.nodes
    let r :=
      match st.max_meters with
      | some M =>
          split_ways.foldl
            (fun (acc : List (List Int) × NodeDict) sw =>
              let r := TopologyMigrator.split_long acc.2 sw M
              (acc.1 ++ r.1, r.2))
            (([] : List (List Int)), st.way_nodes)
      | none => (split_ways, st.way_nodes)
    let edges := (enumFromIdx 0 r.1).map (fun p => mkEdge r.2 w.way_id type name p.1 p.2)
    let st := { st with way_nodes := r.2, ways_buffer := st.ways_buffer ++ edges }
    if CHUNK_SIZE < st.ways_buffer.length then flush st else st

/-- `TopologyMigrator.import_nodes`: buffer one `r_nodes` row per intersection
node, flushing past `CHUNK_SIZE`. -/
def import_nodes (st : MigState) : MigState :=
  st.way_intersections.foldl
    (fun st node_id =>
      let p := getCoord st.way_nodes node_id
      let st := { st with nodes_buffer := st.nodes_buffer ++ [⟨node_id, p.1, p.2⟩] }
      if CHUNK_SIZE < st.nodes_buffer.length then flush st else st) st

/-- `TopologyMigrator.finish`: flush the remaining buffers (the SQL length
update and index creation happen inside the store). -/
def finish (st : MigState) : MigState := flush st

/-- Sum of chord distances between consecutive nodes of a polyline. -/
def polylineLength (m : NodeDict) : List Int → ℝ
  | a :: b :: rest => chord (getCoord m a) (getCoord m b) + polylineLength m (b :: rest)
  | _ => 0

end

/-! ## Decomposition of `smStep` used by the idempotence proof -/

/-- The way-level acceptance checks of `StreetMatcher.way` (highway tag present,
type not ignored, linestring valid). -/
def smWayOk (w : SMWay) : Bool :=
  (tagGet w.tags "highway").isSome &&
  !(decide ((tagGet w.tags "highway").getD "" ∈ ignoredStreetTypes)) &&
  w.linestring.isSome

/-- Bounding box of the way's linestring (junk default, used only under `smWayOk`). -/
def smBounds (w : SMWay) : QRect :=
  ((w.linestring).map QGeo.bounds).getD ⟨0, 0, 0, 0⟩

/-- Distance from the way's linestring to a point (junk default, used only
under `smWayOk`). -/
def smDist (w : SMWay) (pt : QPt) : ℚ :=
  ((w.linestring).map (fun g => g.distToPt pt)).getD 0

/-- The full guard under which `StreetMatcher.way` updates a place. -/
def smUpdCond (c : Bool) (w : SMWay) (p : Place) : Bool :=
  smWayOk w && c && inResidential (smBounds w) p.geo &&
  !(decide (MAX_DISTANCE < smDist w p.geo)) &&
  decide (smDist w p.geo < p.street_distance) &&
  !(decide (p.addr.street ≠ "" ∧ tagGetD w.tags "name" "" = ""))

/-- The update performed on a place when `smUpdCond` holds. -/
def smUpd (w : SMWay) (p : Place) : Place :=
  { p with addr := { p.addr with street := tagGetD w.tags "name" "" },
           street_distance := smDist w p.geo,
           street_id := some w.wid }

/-- Folding `smStep` for a fixed candidate flag over a way stream: the
trajectory of a single place across a street-matcher pass. -/
def smRunP (c : Bool) (ws : List SMWay) (p : Place) : Place :=
  ws.foldl (fun p w => smStep c w p) p

/-! ## Concrete scenario constants used by the theorems -/

/-- Args with both import modes selected (invalid combination). -/
def c8args : RawArgs :=
  ⟨"map.pbf", "127.0.0.1", "pgroute", true, true, false, none, none, none, none, none⟩

/-- Valid topo args (credentials present). -/
def c8okargs : RawArgs :=
  ⟨"map.pbf", "127.0.0.1", "pgroute", true, false, false, none, some "u", some "p", none, none⟩

/-- A way with a housenumber whose linestring construction fails with an
invalid-location error. -/
def c3ev : ExtWay := ⟨5, [("addr:housenumber", "12")], none⟩

/-- An administrative area (from a closed way) whose `admin_level` value is not
an integer string. -/
def c9ev : ExtArea :=
  ⟨11, 11, true, [("boundary", "administrative"), ("admin_level", "yes")], none⟩

/-- A street-less place at the origin. -/
def c10place : Place :=
  { pid := "n1", name := "", addr := ⟨"City", "", "", "1", ""⟩, amenity := "",
    geo := (0, 0), street_distance := 360 }

/-- An unnamed residential way whose linestring passes at distance `1/1000`
from the origin. -/
def c10way : SMWay :=
  ⟨42, [("highway", "residential")],
   some ⟨(0, 0), ⟨0, 0, 0, 0⟩, fun _ => false, fun _ => 1 / 1000⟩⟩

/-- A level-8 administrative area containing every point. -/
def c5a8 : AreaRec :=
  ⟨"a8", "Warsaw", 3, 8, ⟨(0, 0), ⟨0, 0, 1, 1⟩, fun _ => true, fun _ => 0⟩, (0, 0), ""⟩

/-- A level-9 administrative area containing every point. -/
def c5a9 : AreaRec :=
  ⟨"a9", "Sublocality", 3, 9, ⟨(0, 0), ⟨0, 0, 1, 1⟩, fun _ => true, fun _ => 0⟩, (0, 0), ""⟩

/-- A place with empty city inside both areas above. -/
def c5place : Place :=
  { pid := "n2", name := "", addr := ⟨"", "", "Long", "7", ""⟩, amenity := "",
    geo := (1 / 2, 1 / 2), street_distance := 360 }

noncomputable section

/-- The highway way `[1, 2]` of the splitting scenarios. -/
def c1way : MigWay := ⟨7, [("highway", "residential")], [1, 2]⟩

/-- Node dict of the splitting scenarios: nodes 1 and 2 sit on the same
meridian, `1.5 * m2deg 100` degrees apart (`m2deg 100 = 50000000/45317346467`). -/
def c2nodes : NodeDict :=
  [(1, some (0, 0)), (2, some (0, 75000000 / 45317346467))]

/-- As `c2nodes` but node id 20000 (the id the splitter will derive for its
first artificial node) is already taken by an existing node at `(5, 5)`. -/
def c4nodes : NodeDict :=
  [(1, some (0, 0)), (2, some (0, 75000000 / 45317346467)), (20000, some (5, 5))]

/-- The full topology pipeline on the single way `c1way` with
`max_meters = 100`: pass 1, pass 2 (both node events, then the way event),
`import_nodes`, `finish`. -/
def c1final : MigState :=
  finish (import_nodes (way_cb
    (node_cb (node_cb (node_optimisation_cb (migInit (some 100)) c1way)
      ⟨1, 0, 0, []⟩) ⟨2, 0, 75000000 / 45317346467, []⟩) c1way))

/-- First way of the intersection-split scenario. -/
def c6w1 (A B C D : Int) : MigWay := ⟨7, [("highway", "residential")], [A, B, C, D]⟩

/-- Second accepted way of the intersection-split scenario, containing `B`. -/
def c6w2 (X B Y : Int) : MigWay := ⟨8, [("highway", "primary")], [X, B, Y]⟩

/-- Pass-1 state after both ways of the intersection-split scenario, with
`max_meters` not configured. -/
def c6state (A B C D X Y : Int) : MigState :=
  node_optimisation_cb (node_optimisation_cb (migInit none) (c6w1 A B C D)) (c6w2 X B Y)

end

/-! # Theorems -/

/-- C8 counterexample: with both `--topo-import` and `--address-import` given
(and the input file present), the program terminates with exit status 2 (the
`argparse` error path), not with exit status 1 as claimed. -/
theorem c8_invalid_flags_exit_two :
    parse_args (fun _ => true) c8args = Except.error 2 ∧
    parse_args (fun _ => true) c8args ≠ Except.error 1 := by
  exact ⟨rfl, by simp [parse_args, c8args]⟩

/-- C8 (amended): an invalid flag combination (both or neither import mode, or
topo mode without credentials) terminates with argparse's exit status 2; a
missing input file under a valid flag combination terminates with exit
status 1. -/
theorem c8_exit_codes (fe : String → Bool) (a : RawArgs) :
    (a.topo_import = a.address_import → parse_args fe a = Except.error 2) ∧
    (a.topo_import = true → (a.username = none ∨ a.password = none) →
      parse_args fe a = Except.error 2) ∧
    (a.topo_import ≠ a.address_import →
      (a.topo_import = true → a.username ≠ none ∧ a.password ≠ none) →
      fe a.pbf = false → parse_args fe a = Except.error 1) := by
  refine ⟨?_, ?_, ?_⟩
  · intro h
    simp [parse_args, h]
  · intro ht hcred
    by_cases h : a.topo_import = a.address_import
    · simp [parse_args, h]
    · simp [parse_args, h, ht, hcred]
  · intro hne hcred hfile
    have h2 : ¬ (a.topo_import = true ∧ (a.username = none ∨ a.password = none)) := by
      rintro ⟨ht, hmiss⟩
      rcases hcred ht with ⟨hu, hp⟩
      rcases hmiss with h | h
      · exact hu h
      · exact hp h
    simp [parse_args, hne, h2, hfile]

/-- C8 witness: the amended exit codes at concrete inputs — valid topo flags
with a missing file exit 1; both modes selected exit 2. -/
theorem c8_exit_codes_witness :
    parse_args (fun _ => false) c8okargs = Except.error 1 ∧
    parse_args (fun _ => false) c8args = Except.error 2 :=
  ⟨(c8_exit_codes (fun _ => false) c8okargs).2.2 (by decide)
      (fun _ => ⟨by decide, by decide⟩) rfl,
   (c8_exit_codes (fun _ => false) c8args).1 rfl⟩

/-- C9: an `Area` event reaching the administrative branch whose `admin_level`
tag value does not parse as a Python integer makes `AddressExtractor.area`
raise an uncaught `ValueError` from the bare `int()` conversion. -/
theorem c9_bad_admin_level_raises_value_error (st : ExtState) (ev : ExtArea)
    (hfw : ev.from_way = true)
    (hb : tagGet ev.tags "boundary" = some "administrative")
    (hlvl : pyInt (tagGetD ev.tags "admin_level" "99") = none) :
    ∃ st', AddressExtractor.area st ev = Except.error (PyErr.valueErrorInt, st') := by
  refine ⟨{ st with stats := statBump st.stats "areas" }, ?_⟩
  unfold AddressExtractor.area
  simp [hfw, hb, hlvl]

/-- C9 witness: the concrete area event with `admin_level = "yes"`. -/
theorem c9_bad_admin_level_witness :
    ∃ st', AddressExtractor.area extInit c9ev = Except.error (PyErr.valueErrorInt, st') :=
  c9_bad_admin_level_raises_value_error extInit c9ev rfl rfl (by decide)

/-- C3 (code bug): on an invalid-location error, `AddressExtractor.way` bumps
`way_with_invalid_location` but then dereferences `geo.centroid` with
`geo = None`, raising `AttributeError` instead of skipping; the place list and
the street-less index are unchanged at raise time. -/
theorem c3_invalid_location_raises_attribute_error :
    ∃ st', AddressExtractor.way extInit c3ev =
        Except.error (PyErr.attributeErrorNoneCentroid, st') ∧
      st'.places = [] ∧ st'.address_idx = [] ∧
      statGet st'.stats "way_with_invalid_location" = 1 := by
  exact ⟨_, rfl, rfl, rfl, rfl⟩

/-- C10: an accepted unnamed highway way within `MAX_DISTANCE` of a street-less
place is adopted: `street_id` becomes non-null and `street_distance` is within
bound while `addr.street` stays the empty string. -/
theorem c10_unnamed_street_sets_id_with_empty_name :
    ∃ p ∈ smPass [0] [c10way] [c10place],
      p.street_id = some 42 ∧ p.street_distance ≤ MAX_DISTANCE ∧
      p.addr.street = "" := by
  have h : smPass [0] [c10way] [c10place] =
      [{ c10place with addr := { c10place.addr with street := "" },
                       street_distance := 1 / 1000, street_id := some 42 }] := by
    norm_num +decide [smPass, StreetMatcher.way, mapWithIdx, smStep, inResidential,
      c10way, c10place, MAX_DISTANCE, tagGet, tagGetD, ignoredStreetTypes]
  rw [h]
  refine ⟨_, List.mem_singleton_self _, rfl, by norm_num [MAX_DISTANCE], rfl⟩

/-- C5: after the city pass, a place with empty city whose point is truly
contained in both a level-8 and a level-9 candidate area carries the level-8
area's name with `city_from_area` set, whichever order the R-tree returned the
two candidates in. -/
theorem c5_level8_area_preempts_level9 (p : Place) (a8 a9 : AreaRec)
    (l : List AreaRec)
    (hcity : p.addr.city = "")
    (h8 : a8.level = 8) (h9 : a9.level = 9)
    (hin8 : a8.geo.containsPt p.geo = true) (hin9 : a9.geo.containsPt p.geo = true)
    (hl : l = [a8, a9] ∨ l = [a9, a8]) :
    (fillCity p l).addr.city = a8.name ∧ (fillCity p l).city_from_area = true := by
  have hsort : List.insertionSort (fun a b => a.level ≤ b.level) l = [a8, a9] := by
    rcases hl with h | h <;> subst h <;>
      simp [List.insertionSort, List.orderedInsert, h8, h9]
  unfold fillCity
  rw [hsort]
  simp [fillCityLoop, hin8, h8]

/-- C5 witness: the concrete place inside the concrete level-8 ("Warsaw") and
level-9 ("Sublocality") areas, ingested in 9-before-8 order. -/
theorem c5_level8_area_preempts_level9_witness :
    (fillCity c5place [c5a9, c5a8]).addr.city = "Warsaw" ∧
    (fillCity c5place [c5a9, c5a8]).city_from_area = true := by
  have h := c5_level8_area_preempts_level9 c5place c5a8 c5a9 [c5a9, c5a8]
    rfl rfl rfl rfl rfl (Or.inr rfl)
  simpa [c5a8] using h

/-! ### Evaluation helpers for the splitting scenarios -/

/-- Chord distance between two points on the same meridian. -/
theorem chord_same_lon (x y1 y2 : ℝ) : chord (x, y1) (x, y2) = |y1 - y2| := by
  simp [chord]
  exact Real.sqrt_sq_eq_abs _

/-- The single chord of the splitting scenarios: `1.5 * m2deg 100` degrees. -/
theorem c2chord : chord 0 (0, 75000000 / 45317346467) = 75000000 / 45317346467 := by
  rw [show (0 : Pt) = ((0 : ℝ), (0 : ℝ)) from rfl, chord_same_lon]
  rw [abs_sub_comm, sub_zero, abs_of_nonneg (by norm_num)]

/-- `⌊3/2⌋` truncation used by the artificial-point count. -/
theorem pyTrunc_three_halves : pyTrunc ((3 : ℝ) / 2) = 1 := by
  rw [pyTrunc, show ⌊(3 / 2 : ℝ)⌋ = 1 by rw [Int.floor_eq_iff] <;> norm_num]
  rfl

/-- `int((0 + 1.5 * max_degrees) / max_degrees) = 1`, in the shape left by the
simp normal form of the trace. -/
theorem c2times :
    pyTrunc ((75000000 / 45317346467 : ℝ) / (50000000 / 45317346467)) = 1 := by
  rw [show ((75000000 / 45317346467 : ℝ) / (50000000 / 45317346467)) = 3 / 2 by norm_num]
  exact pyTrunc_three_halves

/-- `List.range 1`. -/
theorem list_range_one : List.range 1 = [0] := rfl

/-- Full trace of `WaySplitter.split` on the two-node way: the overflow is
handled by one artificial node with id `2 * 10000 + 0 = 20000` placed at
`node_prev + vector * max_degrees * 0`, i.e. exactly at node 1's position. -/
theorem c2run : WaySplitter.split 100 c2nodes [] [1, 2] =
    ([[1, 20000], [20000, 2]],
     [(1, some (0, 0)), (2, some (0, 75000000 / 45317346467)), (20000, some ((0 : ℝ), (0 : ℝ)))],
     [20000]) := by
  unfold WaySplitter.split
  norm_num [ws_step, ws_art_step, getCoord, dictGet?, dictSet, insertSet, lastSlice,
    c2nodes, c2chord, c2times, pyTrunc_three_halves, m2deg, list_range_one]

/-- C2 (code bug): on a two-node way of chord length `1.5 * max_degrees` the
way splitter emits the sub-way `[20000, 2]` whose polyline length is
`1.5 * m2deg 100 > m2deg 100`: the artificial point is placed at offset
`vector * max_degrees * i` with `i` starting at 0 (at `node_prev` itself), so
the final sub-way keeps the whole overflow. -/
theorem c2_subway_chord_sum_exceeds_max_degrees :
    (WaySplitter.split 100 c2nodes [] [1, 2]).1 = [[1, 20000], [20000, 2]] ∧
    polylineLength (WaySplitter.split 100 c2nodes [] [1, 2]).2.1 [20000, 2] >
      m2deg 100 := by
  rw [c2run]
  refine ⟨rfl, ?_⟩
  norm_num [polylineLength, getCoord, dictGet?, c2chord, m2deg]

/-- Full trace of `WaySplitter.split` when the artificial id 20000 is already
occupied by an existing node at `(5, 5)`: the entry is overwritten in place. -/
theorem c4run : WaySplitter.split 100 c4nodes [] [1, 2] =
    ([[1, 20000], [20000, 2]],
     [(1, some (0, 0)), (2, some (0, 75000000 / 45317346467)), (20000, some ((0 : ℝ), (0 : ℝ)))],
     [20000]) := by
  unfold WaySplitter.split
  norm_num [ws_step, ws_art_step, getCoord, dictGet?, dictSet, insertSet, lastSlice,
    c4nodes, c2chord, c2times, pyTrunc_three_halves, m2deg, list_range_one]

/-- C4 counterexample: node id 20000 exists (at `(5, 5)`) before the split; the
splitter derives the same id for its artificial node and overwrites the
existing node's coordinates with `(0, 0)` — no `+10` probing happens. -/
theorem c4_artificial_id_overwrites_existing_node :
    dictGet? c4nodes 20000 = some (some ((5 : ℝ), (5 : ℝ))) ∧
    dictGet? (WaySplitter.split 100 c4nodes [] [1, 2]).2.1 20000 =
      some (some ((0 : ℝ), (0 : ℝ))) ∧
    ((5 : ℝ), (5 : ℝ)) ≠ ((0 : ℝ), (0 : ℝ)) := by
  refine ⟨rfl, ?_, ?_⟩
  · rw [c4run]; rfl
  · simp [Prod.ext_iff]

/-- Footprint of a dict update. -/
theorem dictGet?_dictSet {α : Type} (m : List (Int × α)) (k k2 : Int) (v : α) :
    dictGet? (dictSet m k v) k2 = if k2 = k then some v else dictGet? m k2 := by
  induction m with
  | nil =>
    simp only [dictSet]
    by_cases h : k2 = k
    · simp [dictGet?, h]
    · simp [dictGet?, h, Ne.symm h]
  | cons hd t ih =>
    obtain ⟨k0, v0⟩ := hd
    simp only [dictSet]
    by_cases h0 : k0 = k
    · subst h0
      simp only [if_pos rfl]
      by_cases h : k2 = k0
      · simp [dictGet?, h]
      · simp [dictGet?, h, Ne.symm h]
    · simp only [if_neg h0]
      by_cases h2 : k0 = k2
      · subst h2
        simp [dictGet?, h0]
      · simp [dictGet?, h2, ih]

/-- A key whose entry differs after one artificial-point iteration is the
artificial id of that iteration. -/
theorem ws_art_step_nodes (μ : ℝ) (n : Int) (p v : Pt) (st : SplitSt) (j : ℕ)
    (k : Int)
    (h : dictGet? ((ws_art_step μ n p v st j).way_nodes) k ≠ dictGet? st.way_nodes k) :
    k = n * 10000 + (j : ℤ) := by
  by_cases hk : k = n * 10000 + (j : ℤ)
  · exact hk
  · exact absurd (by simp [ws_art_step, dictGet?_dictSet, hk]) h

/-- A key whose entry differs after the artificial-point loop is one of the
loop's artificial ids. -/
theorem ws_art_fold_nodes (μ : ℝ) (n : Int) (p v : Pt) (l : List ℕ)
    (st : SplitSt) (k : Int)
    (h : dictGet? ((l.foldl (ws_art_step μ n p v) st).way_nodes) k ≠
      dictGet? st.way_nodes k) :
    ∃ j ∈ l, k = n * 10000 + (j : ℤ) := by
  induction l generalizing st with
  | nil => simp at h
  | cons j0 rest ih =>
    rw [List.foldl_cons] at h
    by_cases hstep :
        dictGet? ((ws_art_step μ n p v st j0).way_nodes) k = dictGet? st.way_nodes k
    · obtain ⟨j, hj, hk⟩ := ih (ws_art_step μ n p v st j0) (by rw [← hstep] at h; exact h)
      exact ⟨j, List.mem_cons_of_mem _ hj, hk⟩
    · exact ⟨j0, List.mem_cons_self _ _, ws_art_step_nodes μ n p v st j0 k hstep⟩

/-- A key whose entry differs after one `ws_step` iteration on node `n` has the
form `n * 10000 + j`. -/
theorem ws_step_nodes (μ : ℝ) (st : SplitSt) (n : Int) (k : Int)
    (h : dictGet? ((ws_step μ st n).way_nodes) k ≠ dictGet? st.way_nodes k) :
    ∃ j : ℕ, k = n * 10000 + (j : ℤ) := by
  unfold ws_step at h
  cases hm : st.node_mem with
  | none => rw [hm] at h; simp at h
  | some p0 =>
    rw [hm] at h
    simp only at h
    split at h
    · simp at h
    · split at h
      · simp at h
      · simp only [] at h
        obtain ⟨j, _, hk⟩ := ws_art_fold_nodes _ _ _ _ _ _ _ (by simpa using h)
        exact ⟨j, hk⟩

/-- A key whose entry differs after the whole node loop belongs to some input
node's artificial-id family. -/
theorem ws_fold_nodes (μ : ℝ) (lst : List Int) (st : SplitSt) (k : Int)
    (h : dictGet? ((lst.foldl (ws_step μ) st).way_nodes) k ≠ dictGet? st.way_nodes k) :
    ∃ n ∈ lst, ∃ j : ℕ, k = n * 10000 + (j : ℤ) := by
  induction lst generalizing st with
  | nil => simp at h
  | cons n0 rest ih =>
    rw [List.foldl_cons] at h
    by_cases hstep : dictGet? ((ws_step μ st n0).way_nodes) k = dictGet? st.way_nodes k
    · obtain ⟨n, hn, hk⟩ := ih (ws_step μ st n0) (by rw [← hstep] at h; exact h)
      exact ⟨n, List.mem_cons_of_mem _ hn, hk⟩
    · obtain ⟨j, hk⟩ := ws_step_nodes μ st n0 k hstep
      exact ⟨n0, List.mem_cons_self _ _, j, hk⟩

/-- C4 (amended): every node-dict entry written by `WaySplitter.split` sits at
an id of the form `node_cur_id * 10000 + i` for some node of the input list —
the id is written unconditionally (no `+10` probing), so a colliding existing
entry is overwritten in place rather than preserved. -/
theorem c4_artificial_ids_unprobed (max_meters : ℝ) (m0 : NodeDict)
    (i0 lst : List Int) (k : Int)
    (h : dictGet? (WaySplitter.split max_meters m0 i0 lst).2.1 k ≠ dictGet? m0 k) :
    ∃ n ∈ lst, ∃ j : ℕ, k = n * 10000 + (j : ℤ) := by
  unfold WaySplitter.split at h
  simp only [] at h
  exact ws_fold_nodes _ lst _ k h

/-- C4 witness: at the concrete collision input, the entry at key 20000 did
change, and 20000 is indeed of the form `n * 10000 + j` for a node of the way. -/
theorem c4_artificial_ids_unprobed_witness :
    (dictGet? (WaySplitter.split 100 c4nodes [] [1, 2]).2.1 20000 ≠
      dictGet? c4nodes 20000) ∧
    ∃ n ∈ ([1, 2] : List Int), ∃ j : ℕ, (20000 : ℤ) = n * 10000 + (j : ℤ) := by
  have hne : dictGet? (WaySplitter.split 100 c4nodes [] [1, 2]).2.1 20000 ≠
      dictGet? c4nodes 20000 := by
    rw [c4run]
    simp [dictGet?, c4nodes, Prod.ext_iff]
  exact ⟨hne, c4_artificial_ids_unprobed 100 c4nodes [] [1, 2] 20000 hne⟩

/-! ### The full topology pipeline on the splitting scenario (C1) -/

/-- The emitted rows of the full pipeline run: two edges with sources 1 and
20000 and targets 20000 and 2, but only nodes 1 and 2 are emitted (the
artificial node 20000 is never added to `way_intersections` by `split_long`). -/
theorem c1run :
    c1final.db_ways.map Edge.source = [1, 20000] ∧
    c1final.db_ways.map Edge.target = [20000, 2] ∧
    c1final.db_nodes.map TopoNode.nid = [1, 2] := by
  unfold c1final
  norm_num +decide [finish, flush, import_nodes, way_cb, node_cb, node_optimisation_cb,
    migInit, c1way, filter_way, tagGet, tagGetD, wayMapping, split_on_intersections,
    insertSet, TopologyMigrator.split_long, sl_step, sl_art_step, getCoord, dictGet?,
    dictSet, lastSlice, mkEdge, enumFromIdx, CHUNK_SIZE, c2chord, c2times,
    pyTrunc_three_halves, m2deg, list_range_one]

/-- C1 (code bug): with `max_meters` configured, the pipeline emits an edge
whose source (the artificial node id 20000) is not among the emitted
TopologyNode ids: `split_long` never adds its split points to
`way_intersections`, and `import_nodes` emits only `way_intersections`. -/
theorem c1_split_edge_endpoint_not_in_emitted_nodes :
    ∃ e ∈ c1final.db_ways, ¬ e.source ∈ c1final.db_nodes.map TopoNode.nid := by
  obtain ⟨hs, _, hn⟩ := c1run
  have hmem : (20000 : Int) ∈ c1final.db_ways.map Edge.source := by
    rw [hs]; simp
  obtain ⟨e, he, hesrc⟩ := List.mem_map.mp hmem
  refine ⟨e, he, ?_⟩
  rw [hn, hesrc]
  decide

/-- C6: after pass 1 over the highway way `[A, B, C, D]` and another accepted
way containing `B`, pass 2 on `[A, B, C, D]` (no `max_meters`) buffers exactly
the two edges built from the node lists `[A, B]` and `[B, C, D]` — `B` is an
intersection and is shared by both. -/
theorem c6state_eval (A B C D X Y : Int)
    (hAB : A ≠ B) (hAC : A ≠ C) (hAD : A ≠ D) (hBC : B ≠ C) (hBD : B ≠ D)
    (hCD : C ≠ D) (hXA : X ≠ A) (hXB : X ≠ B) (hXC : X ≠ C) (hXD : X ≠ D)
    (hYA : Y ≠ A) (hYB : Y ≠ B) (hYC : Y ≠ C) (hYD : Y ≠ D) (hXY : X ≠ Y) :
    c6state A B C D X Y =
      ⟨[A, D, B, X, Y],
       [(A, none), (B, none), (C, none), (D, none), (X, none), (Y, none)],
       [], [], [], [], none⟩ := by
  have h1 : node_optimisation_cb (migInit none) (c6w1 A B C D) =
      ⟨[A, D], [(A, none), (B, none), (C, none), (D, none)], [], [], [], [], none⟩ := by
    simp +decide [node_optimisation_cb, c6w1, migInit, filter_way, tagGet, tagGetD,
      wayMapping, insertSet, dictGet?, dictSet,
      hAB, hAC, hAD, hBC, hBD, hCD,
      Ne.symm hAB, Ne.symm hAC, Ne.symm hAD, Ne.symm hBC, Ne.symm hBD, Ne.symm hCD]
  rw [c6state, h1]
  simp +decide [node_optimisation_cb, c6w2, filter_way, tagGet, tagGetD, wayMapping,
    insertSet, dictGet?, dictSet,
    hAB, hAD, hBD, hXA, hXB, hXC, hXD, hYA, hYB, hYC, hYD, hXY,
    Ne.symm hAB, Ne.symm hAD, Ne.symm hBD, Ne.symm hXA, Ne.symm hXB, Ne.symm hXC,
    Ne.symm hXD, Ne.symm hYA, Ne.symm hYB, Ne.symm hYC, Ne.symm hYD, Ne.symm hXY]

/-- C6: after pass 1 over the highway way `[A, B, C, D]` and another accepted
way containing `B`, pass 2 on `[A, B, C, D]` (no `max_meters`) buffers exactly
the two edges built from the node lists `[A, B]` and `[B, C, D]` — `B` is an
intersection and is shared by both. -/
theorem c6_way_cb_splits_on_intersection (A B C D X Y : Int)
    (hAB : A ≠ B) (hAC : A ≠ C) (hAD : A ≠ D) (hBC : B ≠ C) (hBD : B ≠ D)
    (hCD : C ≠ D) (hXA : X ≠ A) (hXB : X ≠ B) (hXC : X ≠ C) (hXD : X ≠ D)
    (hYA : Y ≠ A) (hYB : Y ≠ B) (hYC : Y ≠ C) (hYD : Y ≠ D) (hXY : X ≠ Y) :
    (way_cb (c6state A B C D X Y) (c6w1 A B C D)).ways_buffer =
      [mkEdge (c6state A B C D X Y).way_nodes 7 700 "" 0 [A, B],
       mkEdge (c6state A B C D X Y).way_nodes 7 700 "" 1 [B, C, D]] := by
  rw [c6state_eval A B C D X Y hAB hAC hAD hBC hBD hCD hXA hXB hXC hXD hYA hYB hYC hYD hXY]
  simp +decide [way_cb, c6w1, filter_way, tagGet, tagGetD, wayMapping,
    split_on_intersections, mkEdge, enumFromIdx, getCoord, dictGet?, CHUNK_SIZE,
    hAC, hBC, hCD, hXC, hYC, hAD, hBD,
    Ne.symm hAC, Ne.symm hBC, Ne.symm hCD, Ne.symm hXC, Ne.symm hYC,
    Ne.symm hAD, Ne.symm hBD]

/-- C6 witness: the split at concrete node ids `1..6`. -/
theorem c6_way_cb_splits_on_intersection_witness :
    (way_cb (c6state 1 2 3 4 5 6) (c6w1 1 2 3 4)).ways_buffer =
      [mkEdge (c6state 1 2 3 4 5 6).way_nodes 7 700 "" 0 [1, 2],
       mkEdge (c6state 1 2 3 4 5 6).way_nodes 7 700 "" 1 [2, 3, 4]] :=
  c6_way_cb_splits_on_intersection 1 2 3 4 5 6 (by decide) (by decide) (by decide)
    (by decide) (by decide) (by decide) (by decide) (by decide) (by decide) (by decide)
    (by decide) (by decide) (by decide) (by decide) (by decide)

/-! ### Street matcher idempotence (C7) -/

/-- `smStep` in guard/update form. -/
theorem smStep_char (c : Bool) (w : SMWay) (p : Place) :
    smStep c w p = if smUpdCond c w p then smUpd w p else p := by
  unfold smStep smUpdCond smUpd smWayOk smBounds smDist
  cases htag : tagGet w.tags "highway" with
  | none => simp
  | some wt =>
    cases hls : w.linestring with
    | none => simp [htag]
    | some g =>
      by_cases hig : wt ∈ ignoredStreetTypes
      · simp [htag, hls, hig]
      · by_cases hcand : (c && inResidential g.bounds p.geo) = true
        · by_cases hfar : MAX_DISTANCE < g.distToPt p.geo
          · simp [htag, hls, hig, hcand, hfar]
          · by_cases hlt : g.distToPt p.geo < p.street_distance
            · by_cases hkeep : p.addr.street ≠ "" ∧ tagGetD w.tags "name" "" = ""
              · simp [htag, hls, hig, hcand, hfar, hlt, hkeep]
              · simp [htag, hls, hig, hcand, hfar, hlt, hkeep]
            · simp [htag, hls, hig, hcand, hfar, hlt]
        · simp [htag, hls, hig, hcand]

/-- The update guard, componentwise. -/
theorem smUpdCond_iff (c : Bool) (w : SMWay) (p : Place) :
    smUpdCond c w p = true ↔
      smWayOk w = true ∧ c = true ∧ inResidential (smBounds w) p.geo = true ∧
      ¬ (MAX_DISTANCE < smDist w p.geo) ∧ smDist w p.geo < p.street_distance ∧
      ¬ (p.addr.street ≠ "" ∧ tagGetD w.tags "name" "" = "") := by
  unfold smUpdCond
  simp [Bool.and_eq_true, and_assoc]
  tauto

/-- `smStep` never moves the place's point. -/
theorem smStep_geo (c : Bool) (w : SMWay) (p : Place) : (smStep c w p).geo = p.geo := by
  rw [smStep_char]
  split <;> simp [smUpd]

/-- `smStep` never increases the matched street distance. -/
theorem smStep_dist_le (c : Bool) (w : SMWay) (p : Place) :
    (smStep c w p).street_distance ≤ p.street_distance := by
  rw [smStep_char]
  split
  · next h =>
    obtain ⟨-, -, -, -, hlt, -⟩ := (smUpdCond_iff c w p).mp h
    simp [smUpd]
    exact le_of_lt hlt
  · exact le_refl _

/-- `smStep` never empties a non-empty street name. -/
theorem smStep_street_ne (c : Bool) (w : SMWay) (p : Place)
    (h : p.addr.street ≠ "") : (smStep c w p).addr.street ≠ "" := by
  rw [smStep_char]
  split
  · next hc =>
    obtain ⟨-, -, -, -, -, hkeep⟩ := (smUpdCond_iff c w p).mp hc
    simp only [smUpd]
    intro hname
    exact hkeep ⟨h, hname⟩
  · exact h

/-- Unfolding one way of `smRunP`. -/
theorem smRunP_cons (c : Bool) (w : SMWay) (ws : List SMWay) (p : Place) :
    smRunP c (w :: ws) p = smRunP c ws (smStep c w p) := rfl

/-- The place's point through a whole pass. -/
theorem smRunP_geo (c : Bool) (ws : List SMWay) (p : Place) :
    (smRunP c ws p).geo = p.geo := by
  induction ws generalizing p with
  | nil => rfl
  | cons w ws ih => rw [smRunP_cons, ih, smStep_geo]

/-- The street distance through a whole pass. -/
theorem smRunP_dist_le (c : Bool) (ws : List SMWay) (p : Place) :
    (smRunP c ws p).street_distance ≤ p.street_distance := by
  induction ws generalizing p with
  | nil => exact le_refl _
  | cons w ws ih =>
    rw [smRunP_cons]
    exact le_trans (ih (smStep c w p)) (smStep_dist_le c w p)

/-- Street non-emptiness through a whole pass. -/
theorem smRunP_street_ne (c : Bool) (ws : List SMWay) (p : Place)
    (h : p.addr.street ≠ "") : (smRunP c ws p).addr.street ≠ "" := by
  induction ws generalizing p with
  | nil => exact h
  | cons w ws ih =>
    rw [smRunP_cons]
    exact ih (smStep c w p) (smStep_street_ne c w p h)

/-- A state fixed by every way of the stream is fixed by the pass. -/
theorem smRunP_fix (c : Bool) (ws : List SMWay) (q : Place)
    (h : ∀ w ∈ ws, smStep c w q = q) : smRunP c ws q = q := by
  induction ws with
  | nil => rfl
  | cons w ws ih =>
    rw [smRunP_cons, h w (List.mem_cons_self _ _)]
    exact ih (fun w2 hw2 => h w2 (List.mem_cons_of_mem _ hw2))

/-- Key lemma: the final state of a pass is fixed by every way of the stream. -/
theorem smStep_fixes_final (c : Bool) (ws : List SMWay) (p : Place) :
    ∀ w ∈ ws, smStep c w (smRunP c ws p) = smRunP c ws p := by
  induction ws generalizing p with
  | nil => intro w hw; cases hw
  | cons w0 rest ih =>
    intro w hw
    rw [smRunP_cons]
    rcases List.mem_cons.mp hw with hw0 | hwrest
    · subst hw0
      set p1 := smStep c w p with hp1
      set q := smRunP c rest p1 with hq
      rw [smStep_char]
      by_cases hcq : smUpdCond c w q = true
      · exfalso
        obtain ⟨hok, hc, hres, hfar, hlt, hkeep⟩ := (smUpdCond_iff c w q).mp hcq
        have hgeo : q.geo = p.geo := by rw [hq, smRunP_geo, hp1, smStep_geo]
        by_cases hcp : smUpdCond c w p = true
        · have hd : p1.street_distance = smDist w p.geo := by
            rw [hp1, smStep_char, if_pos hcp, smUpd]
          have hle : q.street_distance ≤ smDist w p.geo := by
            rw [hq, ← hd]; exact smRunP_dist_le c rest p1
          rw [hgeo] at hlt
          exact absurd (lt_of_lt_of_le hlt hle) (lt_irrefl _)
        · have hp1p : p1 = p := by rw [hp1, smStep_char, if_neg hcp]
          have hltp : smDist w p.geo < p.street_distance := by
            rw [hgeo] at hlt
            exact lt_of_lt_of_le hlt (by rw [hq, hp1p]; exact smRunP_dist_le c rest p)
          have hresp : inResidential (smBounds w) p.geo = true := by rw [← hgeo]; exact hres
          apply hcp
          rw [smUpdCond_iff]
          refine ⟨hok, hc, hresp, by rw [← hgeo]; exact hfar, hltp, ?_⟩
          rintro ⟨hstp, hname⟩
          have hstq : q.addr.street ≠ "" := by
            rw [hq, hp1p]; exact smRunP_street_ne c rest p hstp
          exact hkeep ⟨hstq, hname⟩
      · rw [if_neg hcq]
    · exact ih (smStep c w0 p) w hwrest
/-- One pass is idempotent on a single place. -/
theorem smRunP_idem (c : Bool) (ws : List SMWay) (p : Place) :
    smRunP c ws (smRunP c ws p) = smRunP c ws p :=
  smRunP_fix c ws _ (smStep_fixes_final c ws p)

/-- `mapWithIdx` congruence. -/
theorem mapWithIdx_congr {α : Type} (f g : ℕ → α → α)
    (h : ∀ i a, f i a = g i a) :
    ∀ (n : ℕ) (l : List α), mapWithIdx f n l = mapWithIdx g n l := by
  intro n l
  induction l generalizing n with
  | nil => rfl
  | cons a rest ih => simp [mapWithIdx, h, ih]

/-- `mapWithIdx` of the identity. -/
theorem mapWithIdx_id {α : Type} (n : ℕ) (l : List α) :
    mapWithIdx (fun _ a => a) n l = l := by
  induction l generalizing n with
  | nil => rfl
  | cons a rest ih => simp [mapWithIdx, ih]

/-- `mapWithIdx` composition. -/
theorem mapWithIdx_comp {α : Type} (f g : ℕ → α → α) (n : ℕ) (l : List α) :
    mapWithIdx f n (mapWithIdx g n l) = mapWithIdx (fun i a => f i (g i a)) n l := by
  induction l generalizing n with
  | nil => rfl
  | cons a rest ih => simp [mapWithIdx, ih]

/-- A street-matcher pass acts on each place independently. -/
theorem smPass_eq (idx : List ℕ) (ws : List SMWay) (ps : List Place) :
    smPass idx ws ps =
      mapWithIdx (fun i p => smRunP (decide (i ∈ idx)) ws p) 0 ps := by
  induction ws generalizing ps with
  | nil =>
    calc smPass idx [] ps = ps := rfl
      _ = mapWithIdx (fun _ a => a) 0 ps := (mapWithIdx_id 0 ps).symm
      _ = mapWithIdx (fun i p => smRunP (decide (i ∈ idx)) [] p) 0 ps :=
          mapWithIdx_congr _ _ (fun i a => rfl) 0 ps
  | cons w ws ih =>
    rw [show smPass idx (w :: ws) ps = smPass idx ws (StreetMatcher.way idx w ps) from rfl]
    rw [ih, StreetMatcher.way, mapWithIdx_comp]
    exact mapWithIdx_congr _ _ (fun i p => rfl) 0 ps

/-- C7: running the street-matcher pass a second time over the same way
stream, starting from the state left by the first pass, changes nothing:
two passes equal one pass on every place. -/
theorem c7_street_matcher_idempotent (idx : List ℕ) (ws : List SMWay)
    (ps : List Place) :
    smPass idx ws (smPass idx ws ps) = smPass idx ws ps := by
  rw [smPass_eq idx ws ps, smPass_eq idx ws, mapWithIdx_comp]
  exact mapWithIdx_congr _ _ (fun i p => smRunP_idem _ ws p) 0 ps

end TopoImport
